import Mathlib

/-!
Verification of the review-orchestration pipeline implemented in
`.github/scripts/ai_reviewer.py`.

The Python script is embedded shallowly: every pure transformation of the
script (fence stripping, JSON decoding, report formatting, label decision,
exit-code decision, the orchestration in `main`) becomes an executable Lean
definition, and the specified properties become theorems about those
definitions.  Network transport is out of scope; the functions are
parameterised over the data the network would deliver (the diff text, the
parsed metadata, the reasoning-service response text, and the HTTP status
the host returns for the label request).
-/

/-! ## Python string primitives -/

/-- Backquote character, written via its code point. -/
def bq : Char := Char.ofNat 96

/-- Whitespace predicate matching CPython `str.strip()` / `str.isspace()`:
ASCII whitespace (including vertical tab, form feed and the separator
control characters) together with the Unicode space characters. -/
def py_isspace (c : Char) : Bool :=
  c == ' ' || c == '\t' || c == '\n' || c == '\r' ||
  c == Char.ofNat 0x0b || c == Char.ofNat 0x0c ||
  c == Char.ofNat 0x1c || c == Char.ofNat 0x1d ||
  c == Char.ofNat 0x1e || c == Char.ofNat 0x1f ||
  c == Char.ofNat 0x85 || c == Char.ofNat 0xa0 ||
  c == Char.ofNat 0x1680 ||
  (0x2000 ≤ c.toNat && c.toNat ≤ 0x200a) ||
  c == Char.ofNat 0x2028 || c == Char.ofNat 0x2029 ||
  c == Char.ofNat 0x202f || c == Char.ofNat 0x205f ||
  c == Char.ofNat 0x3000

/-- Python `s.strip()` on a character list: drop whitespace from both ends. -/
def py_strip (l : List Char) : List Char :=
  (((l.dropWhile py_isspace).reverse.dropWhile py_isspace)).reverse

/-- Python string slicing `s[:n]`: the first `n` characters. -/
def py_take (n : Nat) (s : String) : String :=
  String.mk (s.toList.take n)

/-- Does `s` start with the pattern `p` (character-wise)? -/
def starts_with_l : List Char → List Char → Bool
  | [], _ => true
  | _ :: _, [] => false
  | p :: ps, c :: cs => p == c && starts_with_l ps cs

/-- Does `s` contain the pattern `pat` as a contiguous substring? -/
def contains_sub (pat : List Char) : List Char → Bool
  | [] => starts_with_l pat []
  | c :: rest => starts_with_l pat (c :: rest) || contains_sub pat rest

/-- The pattern removed by the second alternative of the regex
`r"` followed by "``json|```" in the script: three backquotes. -/
def fence3 : List Char := [bq, bq, bq]

/-- The pattern removed by the first alternative of the regex:
three backquotes followed by the letters of the word json. -/
def fence_json : List Char := [bq, bq, bq, 'j', 's', 'o', 'n']

/-- Worker for `remove_fences`, structurally recursive on a fuel bound so
that the definition evaluates inside the kernel; every step consumes at
least one character, so any fuel at least the length of the input gives the
fuel-free behaviour (out-of-fuel returns the input unchanged, a case never
reached from `remove_fences`). -/
def remove_fences_fuel : Nat → List Char → List Char
  | 0, l => l
  | _ + 1, [] => []
  | fuel + 1, c :: rest =>
    if starts_with_l fence_json (c :: rest) then remove_fences_fuel fuel (rest.drop 6)
    else if starts_with_l fence3 (c :: rest) then remove_fences_fuel fuel (rest.drop 2)
    else c :: remove_fences_fuel fuel rest

/-- Model of `re.sub(r"```json|```", "", raw_text)`: scan left to right; at
each position try the first alternative, then the second, else keep the
character.  This is exactly the leftmost, first-alternative-first matching
discipline of `re.sub`. -/
def remove_fences (l : List Char) : List Char :=
  remove_fences_fuel l.length l

/-- The cleaning step of `call_claude_agent`:
`re.sub(r"```json|```", "", raw_text).strip()`. -/
def clean_response (raw : String) : String :=
  String.mk (py_strip (remove_fences raw.toList))

/-! ## JSON values and a model of `json.loads`

The script decodes the reasoning-service response with Python `json.loads`.
We model the decoder executably on the JSON subset exercised in this
development: null, booleans, integer numbers, strings (with the standard
escape sequences including `\uXXXX` for non-surrogate code points), arrays
and objects.  Inputs outside this subset (floats, surrogate pairs) are
rejected by the model; every concrete input the theorems below evaluate the
model on lies inside the subset and decodes exactly as CPython does. -/

inductive Json where
  | null : Json
  | bool (b : Bool) : Json
  | num (n : Int) : Json
  | str (s : String) : Json
  | arr (elems : List Json) : Json
  | obj (fields : List (String × Json)) : Json

/-- Is the value a JSON object (a Python `dict`)? -/
def Json.isObj : Json → Bool
  | Json.obj _ => true
  | _ => false

/-- Look up a key in an object, like Python `d.get(key)`. -/
def Json.get (j : Json) (key : String) : Option Json :=
  match j with
  | Json.obj fields => fields.lookup key
  | _ => none

/-- Look up a key and require a string value. -/
def Json.getStr (j : Json) (key : String) : Option String :=
  match j.get key with
  | some (Json.str s) => some s
  | _ => none

/-- JSON whitespace skipped by the decoder: space, tab, newline, return. -/
def skip_ws (l : List Char) : List Char :=
  l.dropWhile (fun c => c == ' ' || c == '\t' || c == '\n' || c == '\r')

/-- Value of a hexadecimal digit. -/
def hex_val (c : Char) : Option Nat :=
  if '0' ≤ c ∧ c ≤ '9' then some (c.toNat - 48)
  else if 'a' ≤ c ∧ c ≤ 'f' then some (c.toNat - 87)
  else if 'A' ≤ c ∧ c ≤ 'F' then some (c.toNat - 55)
  else none

/-- Parse the body of a JSON string after the opening quote; returns the
decoded characters and the input remaining after the closing quote. -/
def parse_string_body : List Char → Option (List Char × List Char)
  | [] => none
  | '"' :: rest => some ([], rest)
  | '\\' :: rest =>
    match rest with
    | '"' :: r => (parse_string_body r).map (fun p => ('"' :: p.1, p.2))
    | '\\' :: r => (parse_string_body r).map (fun p => ('\\' :: p.1, p.2))
    | '/' :: r => (parse_string_body r).map (fun p => ('/' :: p.1, p.2))
    | 'b' :: r => (parse_string_body r).map (fun p => (Char.ofNat 8 :: p.1, p.2))
    | 'f' :: r => (parse_string_body r).map (fun p => (Char.ofNat 12 :: p.1, p.2))
    | 'n' :: r => (parse_string_body r).map (fun p => ('\n' :: p.1, p.2))
    | 'r' :: r => (parse_string_body r).map (fun p => ('\r' :: p.1, p.2))
    | 't' :: r => (parse_string_body r).map (fun p => ('\t' :: p.1, p.2))
    | 'u' :: h1 :: h2 :: h3 :: h4 :: r =>
      match hex_val h1, hex_val h2, hex_val h3, hex_val h4 with
      | some a, some b, some c, some d =>
        let n := ((a * 16 + b) * 16 + c) * 16 + d
        if 0xd800 ≤ n ∧ n < 0xe000 then none
        else (parse_string_body r).map (fun p => (Char.ofNat n :: p.1, p.2))
      | _, _, _, _ => none
    | _ => none
  | c :: rest =>
    if c.toNat < 32 then none
    else (parse_string_body rest).map (fun p => (c :: p.1, p.2))

/-- Digit string to natural number. -/
def digits_to_nat (ds : List Char) : Nat :=
  ds.foldl (fun a c => a * 10 + (c.toNat - 48)) 0

/-- Parse an integer JSON number (the modelled subset rejects a fraction or
exponent, and a redundant leading zero, as CPython rejects the latter). -/
def parse_number (l : List Char) : Option (Json × List Char) :=
  let neg := match l with | '-' :: _ => true | _ => false
  let l1 := match l with | '-' :: r => r | _ => l
  let ds := l1.takeWhile Char.isDigit
  let rest := l1.dropWhile Char.isDigit
  if ds.isEmpty then none
  else if 1 < ds.length ∧ ds.head? = some '0' then none
  else
    match rest with
    | c :: _ =>
      if c == '.' || c == 'e' || c == 'E' then none
      else some (Json.num (if neg then -(digits_to_nat ds : Int) else (digits_to_nat ds : Int)), rest)
    | [] => some (Json.num (if neg then -(digits_to_nat ds : Int) else (digits_to_nat ds : Int)), rest)

mutual

/-- Parse one JSON value; `fuel` bounds the recursion depth and is always
supplied large enough for termination to be immaterial. -/
def parse_value : Nat → List Char → Option (Json × List Char)
  | 0, _ => none
  | fuel + 1, l =>
    match skip_ws l with
    | 'n' :: 'u' :: 'l' :: 'l' :: rest => some (Json.null, rest)
    | 't' :: 'r' :: 'u' :: 'e' :: rest => some (Json.bool true, rest)
    | 'f' :: 'a' :: 'l' :: 's' :: 'e' :: rest => some (Json.bool false, rest)
    | '"' :: rest => (parse_string_body rest).map (fun p => (Json.str (String.mk p.1), p.2))
    | '[' :: rest =>
      (match skip_ws rest with
       | ']' :: r2 => some (Json.arr [], r2)
       | _ => (parse_elems fuel rest).map (fun p => (Json.arr p.1, p.2)))
    | '\x7b' :: rest =>
      (match skip_ws rest with
       | '\x7d' :: r2 => some (Json.obj [], r2)
       | _ => (parse_members fuel rest).map (fun p => (Json.obj p.1, p.2)))
    | l1 => parse_number l1

/-- Parse a non-empty comma-separated list of values closed by a bracket. -/
def parse_elems : Nat → List Char → Option (List Json × List Char)
  | 0, _ => none
  | fuel + 1, l =>
    match parse_value fuel l with
    | none => none
    | some (v, rest) =>
      match skip_ws rest with
      | ',' :: r2 => (parse_elems fuel r2).map (fun p => (v :: p.1, p.2))
      | ']' :: r2 => some ([v], r2)
      | _ => none

/-- Parse a non-empty comma-separated list of object members closed by a
brace. -/
def parse_members : Nat → List Char → Option (List (String × Json) × List Char)
  | 0, _ => none
  | fuel + 1, l =>
    match skip_ws l with
    | '"' :: r1 =>
      (match parse_string_body r1 with
       | none => none
       | some (k, r2) =>
         match skip_ws r2 with
         | ':' :: r3 =>
           (match parse_value fuel r3 with
            | none => none
            | some (v, r4) =>
              match skip_ws r4 with
              | ',' :: r5 => (parse_members fuel r5).map (fun p => ((String.mk k, v) :: p.1, p.2))
              | '\x7d' :: r5 => some ([(String.mk k, v)], r5)
              | _ => none)
         | _ => none)
    | _ => none

end

/-- Model of Python `json.loads` on the subset described above: decode one
value and require only whitespace to remain. -/
def json_loads (s : String) : Option Json :=
  match parse_value (s.length + 1) s.toList with
  | some (j, rest) => if (skip_ws rest).isEmpty then some j else none
  | none => none

/-! ## The Reasoning Invoker (`call_claude_agent`, parsing part) -/

/-- The fallback dictionary built in the `except json.JSONDecodeError`
branch of `call_claude_agent`: summary is the raw (uncleaned) text, severity
is the literal COMMENT, both lists are empty, recommended action COMMENT. -/
def degraded_response (raw_text : String) : Json :=
  Json.obj
    [("summary", Json.str raw_text),
     ("severity", Json.str "COMMENT"),
     ("issues", Json.arr []),
     ("positive_observations", Json.arr []),
     ("recommended_action", Json.str "COMMENT")]

/-- The parsing tail of `call_claude_agent`: clean the response text, try to
decode it, and fall back to the degraded dictionary exactly when decoding
raises.  The decoder is a parameter so that the theorems quantify over the
behaviour of `json.loads` rather than over the modelled subset only;
`json_loads` is the executable instance. -/
def call_claude_agent_parse (loads : String → Option Json) (raw_text : String) : Json :=
  match loads (clean_response raw_text) with
  | some j => j
  | none => degraded_response raw_text

/-! ## The Assessment data model

`format_review_comment` and `main` consume the decoded dictionary through
`dict.get` with per-key defaults.  `Review` is that dictionary viewed
through the keys the script reads: an absent key is `none` (for the two
list-valued keys the script defaults an absent key to the empty list, which
the embedding folds into the list itself). -/

structure Issue where
  file : Option String
  line_hint : Option String
  category : Option String
  severity : Option String
  description : Option String
  suggestion : Option String

structure Review where
  summary : Option String
  severity : Option String
  issues : List Issue
  positive_observations : List String
  recommended_action : Option String

structure Metadata where
  title : String
  body : String
  author : String
  base : String

/-! ## The Request Builder (`call_claude_agent`, message part) -/

/-- The user message of the request: the f-string of `call_claude_agent`,
with the diff sliced to the 12,000-character budget and the empty-description
fallback of `metadata.body or ...`. -/
def user_message (metadata : Metadata) (diff : String) : String :=
  "Please review this Pull Request:\n\n**PR Title:** " ++ metadata.title ++
  "\n**Author:** " ++ metadata.author ++
  "  \n**Target Branch:** " ++ metadata.base ++
  "\n**PR Description:** " ++ (if metadata.body = "" then "No description provided" else metadata.body) ++
  "\n\n**Code Diff:**\n```diff\n" ++ py_take 12000 diff ++
  "\n```\n\nPerform a thorough agentic review and return your structured JSON findings."

/-- Everything of the user message before the embedded diff. -/
def um_head (metadata : Metadata) : String :=
  "Please review this Pull Request:\n\n**PR Title:** " ++ metadata.title ++
  "\n**Author:** " ++ metadata.author ++
  "  \n**Target Branch:** " ++ metadata.base ++
  "\n**PR Description:** " ++ (if metadata.body = "" then "No description provided" else metadata.body) ++
  "\n\n**Code Diff:**\n```diff\n"

/-- Everything of the user message after the embedded diff. -/
def um_tail : String :=
  "\n```\n\nPerform a thorough agentic review and return your structured JSON findings."

/-! ## The Report Renderer (`format_review_comment`) -/

/-- The `severity_emoji` dictionary. -/
def severity_emoji (s : String) : Option String :=
  if s == "CRITICAL" then some "🔴"
  else if s == "MAJOR" then some "🟠"
  else if s == "MINOR" then some "🟡"
  else if s == "APPROVED" then some "✅"
  else none

/-- The `category_emoji` dictionary. -/
def category_emoji (s : String) : Option String :=
  if s == "SECURITY" then some "🔒"
  else if s == "BUG" then some "🐛"
  else if s == "PERFORMANCE" then some "⚡"
  else if s == "DESIGN" then some "🏗️"
  else if s == "STYLE" then some "✏️"
  else if s == "SPRING_ANTIPATTERN" then some "🍃"
  else none

/-- The `action_map` dictionary of the final-verdict section. -/
def action_map (a : String) : Option String :=
  if a == "APPROVE" then some "✅ **Recommendation: APPROVE** — Looks good to merge!"
  else if a == "REQUEST_CHANGES" then some "❌ **Recommendation: REQUEST CHANGES** — Please address the issues above before merging."
  else if a == "COMMENT" then some "💬 **Recommendation: COMMENT** — Some observations to consider."
  else none

/-- The four comment lines (plus blank separator) appended for one issue,
numbered `idx` within its band. -/
def issue_lines (idx : Nat) (issue : Issue) : List String :=
  let cat := issue.category.getD "GENERAL"
  let emoji := (category_emoji cat).getD "💬"
  let file := issue.file.getD "unknown"
  let locHint := issue.line_hint.getD "See file"
  let desc := issue.description.getD ""
  let fix := issue.suggestion.getD ""
  [s!"**{idx}. {emoji} {cat}** — `{file}`",
   s!"- **Where:** {locHint}",
   s!"- **Problem:** {desc}",
   s!"- **Fix:** {fix}",
   ""]

/-- The band header `#### <emoji> <sev> Issues`. -/
def band_header (sev : String) : String :=
  let e := (severity_emoji sev).getD ""
  s!"#### {e} {sev} Issues"

/-- One iteration of the `for sev in ["CRITICAL", "MAJOR", "MINOR"]` loop:
the lines contributed by the band of severity `sev`. -/
def band_lines (sev : String) (issues : List Issue) : List String :=
  let sev_issues := issues.filter (fun i => i.severity == some sev)
  if sev_issues.isEmpty then []
  else band_header sev :: ((List.enumFrom 1 sev_issues).map (fun p => issue_lines p.1 p.2)).flatten

/-- The issues-section header line, as a function of the reported count. -/
def count_line (n : Nat) : String :=
  s!"### 🔍 Issues Found ({n} total)"

/-- The lines of the issues section: header with total count, blank line,
then the three severity bands. -/
def issues_section (issues : List Issue) : List String :=
  if issues.isEmpty then []
  else
    let n := issues.length
    count_line n :: "" ::
      (([ "CRITICAL", "MAJOR", "MINOR" ] : List String).map (fun sev => band_lines sev issues)).flatten

/-- The lines of the positive-observations section. -/
def positives_section (positives : List String) : List String :=
  if positives.isEmpty then []
  else "### 👍 Well Done" :: positives.map (fun p => s!"- {p}") ++ [""]

/-- The lines of the final-verdict section and footer. -/
def verdict_section (action : String) : List String :=
  ["### 🏁 Final Verdict",
   (action_map action).getD "💬 Review complete.",
   "",
   "---",
   "*🤖 This review was generated by an AI agent. Always apply human judgment.*"]

/-- All lines appended by `format_review_comment`, in order. -/
def format_lines (review : Review) (metadata : Metadata) : List String :=
  let overall := (severity_emoji (review.severity.getD "MINOR")).getD "💬"
  let title := metadata.title
  let author := metadata.author
  [s!"## {overall} AI Code Review — Spring Boot Microservice Analysis",
   s!"> Reviewed by Claude | PR: {title} | Author: @{author}",
   "",
   "### 📋 Summary",
   review.summary.getD "No summary provided.",
   ""] ++
  issues_section review.issues ++
  positives_section review.positive_observations ++
  verdict_section (review.recommended_action.getD "COMMENT")

/-- `format_review_comment`: the joined comment text. -/
def format_review_comment (review : Review) (metadata : Metadata) : String :=
  String.intercalate "\n" (format_lines review metadata)

/-! ## The Action Decider and Orchestrator (`main`, steps C and D) -/

/-- The label rule of `main`: needs-revision on CRITICAL severity or a
REQUEST_CHANGES recommendation, else ai-approved on APPROVE, else nothing.
Severity and action are read with the defaults of lines 278 and 279. -/
def decide_label (review : Review) : Option String :=
  let severity := review.severity.getD "MINOR"
  let action := review.recommended_action.getD "COMMENT"
  if severity == "CRITICAL" || action == "REQUEST_CHANGES" then some "needs-revision"
  else if action == "APPROVE" then some "ai-approved"
  else none

/-- The exit rule of `main`: `sys.exit(1)` exactly when severity is
CRITICAL, else the process falls off the end of `main` successfully. -/
def exit_code_of (review : Review) : Nat :=
  if review.severity.getD "MINOR" == "CRITICAL" then 1 else 0

/-- `requests.Response.raise_for_status()`: raises for a 4xx or 5xx status. -/
def raise_for_status (status : Nat) : Except String Unit :=
  if 400 ≤ status ∧ status < 600 then Except.error "HTTPError" else Except.ok ()

/-- The error handling of `add_label`: a 422 from the host is only warned
about; any other status goes through `raise_for_status`. -/
def add_label_result (status : Nat) : Except String Unit :=
  if status == 422 then Except.ok () else raise_for_status status

/-- Observable outcome of one run of `main`. -/
structure RunOutcome where
  reasoning_called : Bool
  comment_posted : Option String
  label_applied : Option String
  exit_code : Nat
  crashed : Bool

/-- The orchestration of `main` after context retrieval, parameterised by
the retrieved diff, the Assessment the Invoker produced, and the status the
host returns if a label is posted.  An uncaught exception from
`raise_for_status` inside `add_label` is modelled as a crashed run (Python
terminates with the traceback, after the comment was already posted). -/
def run_main (metadata : Metadata) (diff : String) (review : Review) (label_status : Nat) : RunOutcome :=
  if (py_strip diff.toList).isEmpty then
    { reasoning_called := false, comment_posted := none, label_applied := none,
      exit_code := 0, crashed := false }
  else
    let comment_body := format_review_comment review metadata
    match decide_label review with
    | some name =>
      (match add_label_result label_status with
       | Except.error _ =>
         { reasoning_called := true, comment_posted := some comment_body,
           label_applied := none, exit_code := 1, crashed := true }
       | Except.ok _ =>
         { reasoning_called := true, comment_posted := some comment_body,
           label_applied := if label_status == 422 then none else some name,
           exit_code := exit_code_of review, crashed := false })
    | none =>
      { reasoning_called := true, comment_posted := some comment_body,
        label_applied := none, exit_code := exit_code_of review, crashed := false }

/-! ## Spec-side definitions

These definitions follow the wording of the specification, for comparison
with the source-derived definitions above. -/

/-- Modelled from the spec: the normalization the Assessment invariant
describes for the severity field — a missing or out-of-enum value becomes
the documented default MINOR. -/
def normalize_sev (s : Option String) : String :=
  match s with
  | none => "MINOR"
  | some v =>
    if ((["CRITICAL", "MAJOR", "MINOR", "APPROVED"] : List String).contains v) then v else "MINOR"

/-- Modelled from the spec: the normalization the Assessment invariant
describes for the recommended-action field — a missing or out-of-enum value
becomes the documented default COMMENT. -/
def normalize_act (a : Option String) : String :=
  match a with
  | none => "COMMENT"
  | some v =>
    if ((["APPROVE", "REQUEST_CHANGES", "COMMENT"] : List String).contains v) then v else "COMMENT"

/-- Modelled from the spec: an Assessment with both enum fields replaced by
their normalized values, as the claimed invariant would produce it before
the Assessment reaches the Report Renderer and Action Decider. -/
def normalize_enums_spec (r : Review) : Review :=
  { r with
    severity := some (normalize_sev r.severity),
    recommended_action := some (normalize_act r.recommended_action) }

/-- Does the issue severity fall in one of the three rendered bands? -/
def in_band (i : Issue) : Bool :=
  i.severity == some "CRITICAL" || i.severity == some "MAJOR" || i.severity == some "MINOR"

/-- Spec-side issue numbering: consecutive numbers starting at `k`, in
sequence order. -/
def spec_numbered : Nat → List Issue → List String
  | _, [] => []
  | k, i :: rest => issue_lines k i ++ spec_numbered (k + 1) rest

/-- Spec-side band: exactly the issues whose own severity equals the band,
numbered within the band starting at 1, in original sequence order. -/
def spec_band (sev : String) (issues : List Issue) : List String :=
  let matching := issues.filter (fun i => i.severity == some sev)
  if matching.isEmpty then [] else band_header sev :: spec_numbered 1 matching

/-- Spec-side decision table of the Action Decider, first matching rule
wins. -/
def action_label_spec (severity action : String) : Option String :=
  if severity = "CRITICAL" ∨ action = "REQUEST_CHANGES" then some "needs-revision"
  else if action = "APPROVE" then some "ai-approved"
  else none

/-- Number of issues actually rendered inside the three bands. -/
def rendered_count (issues : List Issue) : Nat :=
  ((["CRITICAL", "MAJOR", "MINOR"] : List String).map
    (fun sev => (issues.filter (fun i => i.severity == some sev)).length)).sum

/-! ## Concrete values used by witnesses and counterexamples -/

/-- A minimal metadata record. -/
def m0 : Metadata := { title := "t", body := "", author := "a", base := "main" }

/-- A Review carrying the out-of-enum severity COMMENT (the very value the
degraded Assessment of the Invoker carries). -/
def r_comment : Review :=
  { summary := some "s", severity := some "COMMENT", issues := [],
    positive_observations := [], recommended_action := some "COMMENT" }

/-- A Review with no fields present. -/
def r_empty : Review :=
  { summary := none, severity := none, issues := [],
    positive_observations := [], recommended_action := none }

/-- A Review with MAJOR severity and a REQUEST_CHANGES recommendation. -/
def r_major_rc : Review :=
  { summary := none, severity := some "MAJOR", issues := [],
    positive_observations := [], recommended_action := some "REQUEST_CHANGES" }

/-- An issue whose severity BOGUS matches none of the three bands. -/
def i_bogus : Issue :=
  { file := none, line_hint := none, category := none,
    severity := some "BOGUS", description := none, suggestion := none }

/-- A reasoning-service response that is valid JSON but not the expected
structured shape: a bare empty array. -/
def raw_array : String := "[]"

/-- A reasoning-service response that is a JSON object whose summary field
is written entirely with `\uXXXX` escapes for the backquote (code point
96): it cleans to itself, decodes successfully, and its summary decodes to
three literal backquotes. -/
def raw_escaped : String := "\x7b\"summary\": \"\\u0060\\u0060\\u0060\"\x7d"

/-! ## Helper lemmas -/

/-- A backquote at the head of `remove_fences_fuel fuel l` was already at
the head of `l` (one-character version). -/
theorem bq1_of_remove (fuel : Nat) (l : List Char)
    (h : starts_with_l [bq] (remove_fences_fuel fuel l) = true) :
    starts_with_l [bq] l = true := by
  cases fuel with
  | zero => exact h
  | succ fuel =>
    cases l with
    | nil => simp [remove_fences_fuel, starts_with_l] at h
    | cons c rest =>
      by_cases h1 : starts_with_l fence_json (c :: rest)
      · simp only [fence_json, starts_with_l, Bool.and_eq_true] at h1
        simp [starts_with_l, h1.1]
      · by_cases h2 : starts_with_l fence3 (c :: rest)
        · simp only [fence3, starts_with_l, Bool.and_eq_true] at h2
          simp [starts_with_l, h2.1]
        · simp only [remove_fences_fuel, if_neg h1, if_neg h2] at h
          simp only [starts_with_l, Bool.and_eq_true] at h ⊢
          exact h

/-- Two leading backquotes of `remove_fences_fuel fuel l` were already
leading in `l`. -/
theorem bq2_of_remove (fuel : Nat) (l : List Char)
    (h : starts_with_l [bq, bq] (remove_fences_fuel fuel l) = true) :
    starts_with_l [bq, bq] l = true := by
  cases fuel with
  | zero => exact h
  | succ fuel =>
    cases l with
    | nil => simp [remove_fences_fuel, starts_with_l] at h
    | cons c rest =>
      by_cases h1 : starts_with_l fence_json (c :: rest)
      · simp only [fence_json, starts_with_l, Bool.and_eq_true] at h1
        obtain ⟨hc, h1⟩ := h1
        rcases rest with _ | ⟨c2, rest2⟩
        · simp [starts_with_l] at h1
        · simp only [starts_with_l, Bool.and_eq_true] at h1
          simp [starts_with_l, hc, h1.1]
      · by_cases h2 : starts_with_l fence3 (c :: rest)
        · simp only [fence3, starts_with_l, Bool.and_eq_true] at h2
          obtain ⟨hc, h2⟩ := h2
          rcases rest with _ | ⟨c2, rest2⟩
          · simp [starts_with_l] at h2
          · simp only [starts_with_l, Bool.and_eq_true] at h2
            simp [starts_with_l, hc, h2.1]
        · simp only [remove_fences_fuel, if_neg h1, if_neg h2] at h
          simp only [starts_with_l, Bool.and_eq_true] at h ⊢
          obtain ⟨hc, h⟩ := h
          exact ⟨hc, bq1_of_remove fuel rest h⟩

/-- The output of the fence-removal worker never contains three
consecutive backquotes, for sufficient fuel. -/
theorem remove_fences_fuel_no_fence3 :
    ∀ (fuel : Nat) (l : List Char), l.length ≤ fuel →
      contains_sub fence3 (remove_fences_fuel fuel l) = false := by
  intro fuel
  induction fuel with
  | zero =>
    intro l hl
    have hnil : l = [] := List.eq_nil_of_length_eq_zero (Nat.le_zero.mp hl)
    subst hnil
    rfl
  | succ fuel ih =>
    intro l hl
    cases l with
    | nil => rfl
    | cons c rest =>
      have hr : rest.length ≤ fuel := by
        simp only [List.length_cons] at hl
        omega
      by_cases h1 : starts_with_l fence_json (c :: rest)
      · simp only [remove_fences_fuel, if_pos h1]
        refine ih _ ?_
        simp only [List.length_drop]
        omega
      · by_cases h2 : starts_with_l fence3 (c :: rest)
        · simp only [remove_fences_fuel, if_neg h1, if_pos h2]
          refine ih _ ?_
          simp only [List.length_drop]
          omega
        · simp only [remove_fences_fuel, if_neg h1, if_neg h2, contains_sub,
            Bool.or_eq_false_iff]
          refine ⟨?_, ih rest hr⟩
          cases hs : starts_with_l fence3 (c :: remove_fences_fuel fuel rest) with
          | false => rfl
          | true =>
            exfalso
            simp only [fence3, starts_with_l, Bool.and_eq_true] at hs
            obtain ⟨hc, hs⟩ := hs
            have h2rest := bq2_of_remove fuel rest hs
            have hstart : starts_with_l fence3 (c :: rest) = true := by
              simp only [fence3, starts_with_l, Bool.and_eq_true]
              exact ⟨hc, h2rest⟩
            exact h2 hstart

/-- The output of `remove_fences` never contains three consecutive
backquotes. -/
theorem remove_fences_no_fence3 (l : List Char) :
    contains_sub fence3 (remove_fences l) = false :=
  remove_fences_fuel_no_fence3 l.length l (Nat.le_refl _)

/-- A match of the json fence is in particular a match of the bare fence. -/
theorem starts_fence_json_imp_fence3 (s : List Char)
    (h : starts_with_l fence_json s = true) : starts_with_l fence3 s = true := by
  rcases s with _ | ⟨a, s1⟩
  · simp [fence_json, starts_with_l] at h
  rcases s1 with _ | ⟨b, s2⟩
  · simp [fence_json, starts_with_l] at h
  rcases s2 with _ | ⟨c, s3⟩
  · simp [fence_json, starts_with_l] at h
  simp only [fence_json, fence3, starts_with_l, Bool.and_eq_true] at h ⊢
  exact ⟨h.1, h.2.1, h.2.2.1, by simp [starts_with_l]⟩

/-- If every match of `p` is a match of `q`, every occurrence of `p` is an
occurrence of `q`. -/
theorem contains_imp (p q : List Char)
    (hpq : ∀ s, starts_with_l p s = true → starts_with_l q s = true) :
    ∀ l, contains_sub p l = true → contains_sub q l = true := by
  intro l
  induction l with
  | nil => exact fun h => hpq [] h
  | cons c rest ih =>
    simp only [contains_sub, Bool.or_eq_true]
    rintro (h | h)
    · exact Or.inl (hpq _ h)
    · exact Or.inr (ih h)

/-- A pattern matching at `s` still matches after extending on the right. -/
theorem starts_with_l_append (pat s t : List Char)
    (h : starts_with_l pat s = true) : starts_with_l pat (s ++ t) = true := by
  induction pat generalizing s with
  | nil => simp [starts_with_l]
  | cons p ps ih =>
    rcases s with _ | ⟨c, cs⟩
    · simp [starts_with_l] at h
    · simp only [List.cons_append, starts_with_l, Bool.and_eq_true] at h ⊢
      exact ⟨h.1, ih cs h.2⟩

/-- An occurrence in the right part of an append is an occurrence in the
whole. -/
theorem contains_append_left (pat s t : List Char)
    (h : contains_sub pat t = true) : contains_sub pat (s ++ t) = true := by
  induction s with
  | nil => exact h
  | cons c cs ih =>
    simp only [List.cons_append, contains_sub, Bool.or_eq_true]
    exact Or.inr ih

/-- An occurrence in the left part of an append is an occurrence in the
whole. -/
theorem contains_append_right (pat s t : List Char)
    (h : contains_sub pat s = true) : contains_sub pat (s ++ t) = true := by
  induction s with
  | nil =>
    rcases pat with _ | ⟨p, ps⟩
    · rcases t with _ | ⟨c, cs⟩
      · exact h
      · simp [contains_sub, starts_with_l]
    · simp [contains_sub, starts_with_l] at h
  | cons c cs ih =>
    simp only [contains_sub, Bool.or_eq_true] at h
    simp only [List.cons_append, contains_sub, Bool.or_eq_true]
    rcases h with h | h
    · exact Or.inl (starts_with_l_append _ _ _ h)
    · exact Or.inr (ih h)

/-- `dropWhile` removes a prefix: the dropped part can be restored. -/
theorem dropWhile_decomp (q : Char → Bool) (l : List Char) :
    ∃ u, u ++ l.dropWhile q = l := by
  induction l with
  | nil => exact ⟨[], rfl⟩
  | cons c cs ih =>
    by_cases hq : q c
    · obtain ⟨u, hu⟩ := ih
      refine ⟨c :: u, ?_⟩
      simp [List.dropWhile, hq, hu]
    · refine ⟨[], ?_⟩
      simp [List.dropWhile, hq]

/-- An occurrence surviving `py_strip` was an occurrence in the original. -/
theorem contains_py_strip (pat l : List Char)
    (h : contains_sub pat (py_strip l) = true) : contains_sub pat l = true := by
  unfold py_strip at h
  obtain ⟨u, hu⟩ := dropWhile_decomp py_isspace ((l.dropWhile py_isspace).reverse)
  have ha : l.dropWhile py_isspace =
      ((l.dropWhile py_isspace).reverse.dropWhile py_isspace).reverse ++ u.reverse := by
    have := congrArg List.reverse hu
    simpa [List.reverse_append] using this.symm
  have h1 : contains_sub pat (l.dropWhile py_isspace) = true := by
    rw [ha]
    exact contains_append_right _ _ _ h
  obtain ⟨v, hv⟩ := dropWhile_decomp py_isspace l
  calc contains_sub pat l
      = contains_sub pat (v ++ l.dropWhile py_isspace) := by rw [hv]
    _ = true := contains_append_left _ _ _ h1

/-- A fully whitespace (or empty) string strips to nothing. -/
theorem py_strip_nil_of_all (l : List Char) (h : ∀ c ∈ l, py_isspace c = true) :
    py_strip l = [] := by
  have h1 : l.dropWhile py_isspace = [] := by
    rw [List.dropWhile_eq_nil_iff]
    exact h
  simp [py_strip, h1]

/-- Normalizing the severity does not change the comparison against
CRITICAL (the only comparison the Action Decider performs on it). -/
theorem normalize_sev_beq (s : Option String) :
    (normalize_sev s == "CRITICAL") = (s.getD "MINOR" == "CRITICAL") := by
  cases s with
  | none => rfl
  | some v =>
    simp only [normalize_sev, Option.getD_some]
    by_cases h : (["CRITICAL", "MAJOR", "MINOR", "APPROVED"] : List String).contains v
    · rw [if_pos h]
    · rw [if_neg h]
      have hv : v ≠ "CRITICAL" := by
        intro hv
        subst hv
        exact h (by decide)
      rw [beq_eq_false_iff_ne.mpr hv]
      decide

/-- Normalizing the recommended action does not change the comparison
against REQUEST_CHANGES or APPROVE (the two comparisons the Action Decider
performs on it). -/
theorem normalize_act_beq (a : Option String) (t : String)
    (ht : t = "REQUEST_CHANGES" ∨ t = "APPROVE") :
    (normalize_act a == t) = (a.getD "COMMENT" == t) := by
  cases a with
  | none => rfl
  | some v =>
    simp only [normalize_act, Option.getD_some]
    by_cases h : (["APPROVE", "REQUEST_CHANGES", "COMMENT"] : List String).contains v
    · rw [if_pos h]
    · rw [if_neg h]
      have hv : v ≠ t := by
        intro hv
        subst hv
        rcases ht with ht | ht <;> subst ht <;> exact h (by decide)
      rw [beq_eq_false_iff_ne.mpr hv]
      rcases ht with ht | ht <;> subst ht <;> decide

/-- Spec-side numbering agrees with the `enumerate(sev_issues, 1)` loop. -/
theorem enum_numbered (l : List Issue) : ∀ k : Nat,
    ((List.enumFrom k l).map (fun p => issue_lines p.1 p.2)).flatten = spec_numbered k l := by
  induction l with
  | nil => intro k; rfl
  | cons i rest ih =>
    intro k
    simp only [List.enumFrom, List.map_cons, List.flatten_cons, spec_numbered]
    rw [ih]

/-- The source band (an `enumerate` loop over a filter) is the spec band. -/
theorem band_lines_eq_spec (sev : String) (issues : List Issue) :
    band_lines sev issues = spec_band sev issues := by
  simp only [band_lines, spec_band]
  by_cases h : (issues.filter (fun i => i.severity == some sev)).isEmpty
  · rw [if_pos h, if_pos h]
  · rw [if_neg h, if_neg h, enum_numbered]

/-- An issue matching one of the three band severities is in-band. -/
theorem in_band_of_sev (i : Issue) (sev : String)
    (hsev : sev = "CRITICAL" ∨ sev = "MAJOR" ∨ sev = "MINOR")
    (hm : i.severity = some sev) : in_band i = true := by
  rcases hsev with h | h | h <;> subst h <;> simp [in_band, hm]

/-- Restricting the issues to the in-band ones does not change a band
filter. -/
theorem filter_in_band_filter (sev : String)
    (hsev : sev = "CRITICAL" ∨ sev = "MAJOR" ∨ sev = "MINOR") (issues : List Issue) :
    (issues.filter in_band).filter (fun i => i.severity == some sev) =
      issues.filter (fun i => i.severity == some sev) := by
  induction issues with
  | nil => rfl
  | cons i rest ih =>
    by_cases hm : i.severity = some sev
    · have hb : in_band i = true := in_band_of_sev i sev hsev hm
      simp [List.filter_cons, hm, hb, ih]
    · have hm2 : (i.severity == some sev) = false := beq_eq_false_iff_ne.mpr hm
      by_cases hb : in_band i
      · simp [List.filter_cons, hm2, hb, ih]
      · simp only [Bool.not_eq_true] at hb
        simp [List.filter_cons, hm2, hb, ih]

/-- The per-band counts of the renderer sum to the number of in-band
issues. -/
theorem band_count_aux (l : List Issue) :
    (l.filter (fun i => i.severity == some "CRITICAL")).length +
    (l.filter (fun i => i.severity == some "MAJOR")).length +
    (l.filter (fun i => i.severity == some "MINOR")).length
    = (l.filter in_band).length := by
  induction l with
  | nil => rfl
  | cons i rest ih =>
    rcases hs : i.severity with _ | v
    · simpa [List.filter_cons, in_band, hs] using ih
    · by_cases h1 : v = "CRITICAL"
      · subst h1
        simp [List.filter_cons, in_band, hs]
        omega
      · by_cases h2 : v = "MAJOR"
        · subst h2
          simp [List.filter_cons, in_band, hs]
          omega
        · by_cases h3 : v = "MINOR"
          · subst h3
            simp [List.filter_cons, in_band, hs]
            omega
          · simp [List.filter_cons, in_band, hs, h1, h2, h3]
            omega

/-! ## Claim theorems -/

/-- Claim C1 (counterexample): the claimed normalization does not happen
before the Assessment reaches the Report Renderer.  On the Assessment whose
severity is the out-of-enum value COMMENT (exactly what the degraded path
produces), the rendered report differs from the report of the normalized
Assessment: the header carries the fallback indicator, not the MINOR one. -/
theorem c1_counterexample :
    format_review_comment r_comment m0 ≠
      format_review_comment (normalize_enums_spec r_comment) m0 := by
  decide

/-- Claim C1 (amended): missing or out-of-enum enum values are not replaced
in the Assessment itself; instead each consumer defaults at point of use.
For the Action Decider this is indistinguishable from the claimed
normalization: label choice and exit disposition agree with the normalized
Assessment.  For the Report Renderer only a missing value behaves like the
default; rendering with severity absent equals rendering with MINOR, and
rendering with recommendedAction absent equals rendering with COMMENT. -/
theorem c1_pointwise_defaults (r : Review) :
    decide_label (normalize_enums_spec r) = decide_label r ∧
    exit_code_of (normalize_enums_spec r) = exit_code_of r ∧
    (∀ m : Metadata,
      format_review_comment { r with severity := none } m =
        format_review_comment { r with severity := some "MINOR" } m ∧
      format_review_comment { r with recommended_action := none } m =
        format_review_comment { r with recommended_action := some "COMMENT" } m) := by
  refine ⟨?_, ?_, fun m => ⟨rfl, rfl⟩⟩
  · simp only [decide_label, normalize_enums_spec, Option.getD_some, normalize_sev_beq,
      normalize_act_beq r.recommended_action "REQUEST_CHANGES" (Or.inl rfl),
      normalize_act_beq r.recommended_action "APPROVE" (Or.inr rfl)]
  · simp only [exit_code_of, normalize_enums_spec, Option.getD_some, normalize_sev_beq]

/-- Claim C2 (counterexample): a response that is valid JSON but not the
expected structured shape (here a bare array) is returned by the Invoker
as-is — it is not an object, and it is not the degraded Assessment the
claim promises. -/
theorem c2_counterexample :
    call_claude_agent_parse json_loads raw_array = Json.arr [] ∧
    (Json.arr []).isObj = false ∧
    Json.arr [] ≠ degraded_response raw_array := by
  refine ⟨rfl, rfl, fun h => Json.noConfusion h⟩

/-- Claim C2 (amended): for every response text on which the JSON decoder
fails (after fence stripping), the Invoker does not fail the run: it
returns the degraded Assessment whose summary is the raw unparsed text,
whose severity is the placeholder COMMENT — distinct from the four real
enum values — whose issues and positive observations are empty, and whose
recommended action is COMMENT. -/
theorem c2_degraded_on_decode_failure (loads : String → Option Json) (raw_text : String)
    (h : loads (clean_response raw_text) = none) :
    call_claude_agent_parse loads raw_text = degraded_response raw_text ∧
    (degraded_response raw_text).getStr "summary" = some raw_text ∧
    (degraded_response raw_text).getStr "severity" = some "COMMENT" ∧
    "COMMENT" ∉ (["CRITICAL", "MAJOR", "MINOR", "APPROVED"] : List String) ∧
    (degraded_response raw_text).get "issues" = some (Json.arr []) ∧
    (degraded_response raw_text).get "positive_observations" = some (Json.arr []) ∧
    (degraded_response raw_text).getStr "recommended_action" = some "COMMENT" := by
  refine ⟨?_, rfl, rfl, by decide, rfl, rfl, rfl⟩
  simp [call_claude_agent_parse, h]

/-- Witness for C2: a decoder rejecting everything sends a concrete
response to the degraded Assessment. -/
theorem c2_degraded_witness :
    call_claude_agent_parse (fun _ => none) "oops" = degraded_response "oops" :=
  (c2_degraded_on_decode_failure (fun _ => none) "oops" rfl).1

/-- Claim C3: the issues section is present exactly when `issues` is
non-empty, and then consists of the count header followed by the three
ordered bands CRITICAL, MAJOR, MINOR, each band holding exactly the issues
whose own severity equals the band, numbered from 1 in original order
(`spec_band`); issues whose severity matches none of the three bands
contribute nothing to the bands. -/
theorem c3_issue_grouping (issues : List Issue) :
    (issues_section issues =
      if issues.isEmpty then []
      else count_line issues.length :: "" ::
        (spec_band "CRITICAL" issues ++ spec_band "MAJOR" issues ++ spec_band "MINOR" issues)) ∧
    (issues_section issues = [] ↔ issues = []) ∧
    spec_band "CRITICAL" (issues.filter in_band) = spec_band "CRITICAL" issues ∧
    spec_band "MAJOR" (issues.filter in_band) = spec_band "MAJOR" issues ∧
    spec_band "MINOR" (issues.filter in_band) = spec_band "MINOR" issues := by
  refine ⟨?_, ?_, ?_, ?_, ?_⟩
  · by_cases h : issues.isEmpty
    · simp [issues_section, h]
    · simp [issues_section, h, band_lines_eq_spec]
  · cases issues with
    | nil => simp [issues_section]
    | cons i rest => simp [issues_section]
  · simp only [spec_band]
    rw [filter_in_band_filter "CRITICAL" (Or.inl rfl)]
  · simp only [spec_band]
    rw [filter_in_band_filter "MAJOR" (Or.inr (Or.inl rfl))]
  · simp only [spec_band]
    rw [filter_in_band_filter "MINOR" (Or.inr (Or.inr rfl))]

/-- Claim C4: the label decision of `main` follows the spec decision table
(first matching rule wins), and when the pipeline runs (non-empty diff, a
host accepting the label) the applied label is exactly that decision. -/
theorem c4_label_decision :
    (∀ r : Review,
      decide_label r =
        action_label_spec (r.severity.getD "MINOR") (r.recommended_action.getD "COMMENT")) ∧
    (∀ (m : Metadata) (d : String) (r : Review),
      (run_main m d r 200).label_applied =
        if (py_strip d.toList).isEmpty then none else decide_label r) := by
  constructor
  · intro r
    simp only [decide_label, action_label_spec]
    by_cases hs : r.severity.getD "MINOR" = "CRITICAL" <;>
      by_cases ha : r.recommended_action.getD "COMMENT" = "REQUEST_CHANGES" <;>
        by_cases h2 : r.recommended_action.getD "COMMENT" = "APPROVE" <;>
          simp [hs, ha, h2]
  · intro m d r
    by_cases hd : py_strip d.data = []
    · simp [run_main, hd]
    · cases hl : decide_label r with
      | none => simp [run_main, hd, hl]
      | some name => simp [run_main, hd, hl, add_label_result, raise_for_status]

/-- Claim C5: the process exit disposition is a failure signal exactly when
severity is CRITICAL, for any other severity a success signal, and it is
independent of the recommended action; in particular MAJOR together with
REQUEST_CHANGES is a success disposition (while still labelled
needs-revision). -/
theorem c5_exit_disposition :
    (∀ r : Review,
      (exit_code_of r = 1 ↔ r.severity.getD "MINOR" = "CRITICAL") ∧
      (exit_code_of r = 0 ↔ r.severity.getD "MINOR" ≠ "CRITICAL") ∧
      (∀ a, exit_code_of { r with recommended_action := a } = exit_code_of r)) ∧
    exit_code_of r_major_rc = 0 ∧ decide_label r_major_rc = some "needs-revision" := by
  refine ⟨fun r => ⟨?_, ?_, fun a => rfl⟩, rfl, rfl⟩
  · by_cases h : r.severity.getD "MINOR" = "CRITICAL" <;> simp [exit_code_of, h]
  · by_cases h : r.severity.getD "MINOR" = "CRITICAL" <;> simp [exit_code_of, h]

/-- Claim C6: the request embeds the diff sliced to the 12,000-character
budget — length exactly `min budget length`, the identity at or under
budget — and the diff slice is the only transformed part: the message is
the fixed template around the verbatim metadata fields with the sliced diff
in the middle. -/
theorem c6_diff_truncation (m : Metadata) (diff : String) :
    (py_take 12000 diff).toList.length = min 12000 diff.toList.length ∧
    (diff.toList.length ≤ 12000 → py_take 12000 diff = diff) ∧
    user_message m diff = um_head m ++ py_take 12000 diff ++ um_tail := by
  refine ⟨?_, ?_, ?_⟩
  · show (diff.toList.take 12000).length = min 12000 diff.toList.length
    exact List.length_take 12000 diff.toList
  · intro h
    cases diff with
    | mk data =>
      show String.mk (data.take 12000) = String.mk data
      exact congrArg String.mk (List.take_of_length_le h)
  · simp [user_message, um_head, um_tail, String.append_assoc]

/-- Witness for C6: a short diff is embedded unmodified. -/
theorem c6_truncation_witness : py_take 12000 "short diff" = "short diff" :=
  (c6_diff_truncation m0 "short diff").2.1 (by decide)

/-- Claim C7: a run whose retrieved diff is empty or whitespace-only makes
no reasoning-service call, posts no comment, applies no label, and
terminates with the success signal. -/
theorem c7_empty_diff (m : Metadata) (d : String) (r : Review) (st : Nat)
    (h : ∀ c ∈ d.toList, py_isspace c = true) :
    run_main m d r st =
      { reasoning_called := false, comment_posted := none, label_applied := none,
        exit_code := 0, crashed := false } := by
  have h1 : py_strip d.data = [] := py_strip_nil_of_all d.toList h
  simp [run_main, h1]

/-- Witness for C7: a concrete whitespace-only diff short-circuits. -/
theorem c7_empty_diff_witness :
    run_main m0 "  \n " r_comment 200 =
      { reasoning_called := false, comment_posted := none, label_applied := none,
        exit_code := 0, crashed := false } :=
  c7_empty_diff m0 "  \n " r_comment 200 (by decide)

/-- Claim C8: a 422 from the host on label application is tolerated (the
call returns normally), the run does not crash, and the exit disposition is
the same as with an accepting host — determined solely by whether severity
is CRITICAL on a non-empty diff. -/
theorem c8_unknown_label_tolerated :
    add_label_result 422 = Except.ok () ∧
    ∀ (m : Metadata) (d : String) (r : Review),
      (run_main m d r 422).crashed = false ∧
      (run_main m d r 422).exit_code = (run_main m d r 200).exit_code ∧
      ((run_main m d r 422).exit_code = 1 ↔
        (py_strip d.toList ≠ [] ∧ r.severity.getD "MINOR" = "CRITICAL")) := by
  refine ⟨rfl, fun m d r => ?_⟩
  by_cases hd : py_strip d.data = []
  · simp [run_main, hd]
  · cases hl : decide_label r with
    | none =>
      by_cases hs : r.severity.getD "MINOR" = "CRITICAL" <;>
        simp [run_main, hd, hl, exit_code_of, hs]
    | some name =>
      by_cases hs : r.severity.getD "MINOR" = "CRITICAL" <;>
        simp [run_main, hd, hl, add_label_result, raise_for_status, exit_code_of, hs]

/-- Claim C9: the issues-section header reports the full length of the
issues sequence, while the bands render only the in-band issues; on a
sequence holding one out-of-band issue the reported total exceeds the
rendered count. -/
theorem c9_total_count :
    (∀ issues : List Issue, issues ≠ [] →
      (issues_section issues).head? = some (count_line issues.length)) ∧
    (∀ issues : List Issue, rendered_count issues = (issues.filter in_band).length) ∧
    ([i_bogus].length = 1 ∧ rendered_count [i_bogus] = 0 ∧
      (issues_section [i_bogus]).head? = some (count_line 1)) := by
  refine ⟨?_, ?_, rfl, rfl, rfl⟩
  · intro issues h
    cases issues with
    | nil => exact absurd rfl h
    | cons i rest => simp [issues_section, count_line]
  · intro issues
    have h := band_count_aux issues
    simp only [rendered_count, List.map_cons, List.map_nil, List.sum_cons, List.sum_nil]
    omega

/-- Witness for C9: the header of the one-bogus-issue section reports one
issue even though zero are rendered. -/
theorem c9_total_count_witness :
    (issues_section [i_bogus]).head? = some (count_line 1) :=
  c9_total_count.1 [i_bogus] (List.cons_ne_nil _ _)

/-- Claim C10 (counterexample): a response whose summary field is written
with ``` escapes cleans to itself, decodes successfully, and yields an
Assessment whose summary contains three literal backquotes — string fields
of the parsed Assessment can contain the fence substrings. -/
theorem c10_counterexample :
    (json_loads (clean_response raw_escaped)).isSome = true ∧
    (call_claude_agent_parse json_loads raw_escaped).getStr "summary" = some (String.mk fence3) ∧
    contains_sub fence3 (String.mk fence3).toList = true := by
  refine ⟨rfl, rfl, rfl⟩

/-- Claim C10 (amended): the Invoker removes every occurrence of the fence
substrings before decoding — the cleaned text handed to the JSON decoder
contains no occurrence of either substring; hence a fence substring in a
parsed string field can only arise from escape sequences, never from
literal fence text of the response. -/
theorem c10_no_fences_reach_decoder (raw : String) :
    contains_sub fence3 (clean_response raw).toList = false ∧
    contains_sub fence_json (clean_response raw).toList = false := by
  have key : ∀ pat : List Char,
      (∀ s, starts_with_l pat s = true → starts_with_l fence3 s = true) →
      contains_sub pat (clean_response raw).toList = false := by
    intro pat himp
    cases hb : contains_sub pat (clean_response raw).toList with
    | false => rfl
    | true =>
      exfalso
      have h1 : contains_sub pat (py_strip (remove_fences raw.toList)) = true := hb
      have h2 := contains_py_strip pat _ h1
      have h3 := contains_imp pat fence3 himp _ h2
      rw [remove_fences_no_fence3] at h3
      exact Bool.noConfusion h3
  exact ⟨key fence3 (fun s hs => hs), key fence_json starts_fence_json_imp_fence3⟩

/-- Witness for C5: adding a REQUEST_CHANGES recommendation does not change
the exit disposition of the empty Assessment. -/
theorem c5_exit_disposition_witness :
    exit_code_of { r_empty with recommended_action := some "REQUEST_CHANGES" } =
      exit_code_of r_empty :=
  (c5_exit_disposition.1 r_empty).2.2 (some "REQUEST_CHANGES")

/-- Witness for C8: on a concrete run a 422 label rejection leaves the run
uncrashed. -/
theorem c8_unknown_label_witness :
    (run_main m0 "x" r_comment 422).crashed = false :=
  (c8_unknown_label_tolerated.2 m0 "x" r_comment).1
